import Mathlib

/-!
Shallow embedding of `process_video` from `app/model.py` of the
pose-estimation repository, together with theorems settling the claims
about its streaming video pipeline.

The embedding models the pipeline over an abstract environment `Env`
that records what the external world (OpenCV capture/writer, the YOLO
model, the clock, the filesystem, ffmpeg) does at each interaction
point, exactly in the order and with the control flow of the Python
source:

  * `cv2.VideoCapture(video_path)` either opens (`sourceOpened`) or not;
    the code never checks the open result before entering the loop.
  * metadata is read once; `fps` is normalized by
    `if fps == 0 or fps is None: fps = 30.0` (`normalizeFps`).
  * the writer is opened with `mp4v`, on failure retried with `XVID`,
    and if both fail `cap.release()` is called and an exception is
    raised (`openSink`, the `sinkOpenFailure` result).
  * the frame loop (`runLoop`) consumes one `IterEvent` per iteration:
    the wall-clock reading at the top-of-loop check, the outcome of
    `cap.read()`, of `yolo_model.track(...)[0].plot(...)`, and of
    `out.write(...)`.  The whole loop body sits inside one
    `try/except`, so a raising annotate or write ends the loop with
    `ExitReason.exn`; the `finally` releases capture and writer.
  * the ffmpeg compatibility transcode (`transcodeStep`) is modeled on
    a set-of-paths filesystem, with the temporary path derived by
    `output_path.replace('.mp4', '_temp.mp4')` (`tempPath`, which
    replaces every occurrence, as Python's `str.replace` does).
-/

/-- Output codecs attempted by the writer, in source order:
`mp4v` first (model.py:74), `XVID` as fallback (model.py:79). -/
inductive Codec
  | mp4v
  | xvid
deriving DecidableEq

/-- Sink open with codec fallback (model.py:74-84): try `mp4v`; if the
writer did not open, try `XVID`; if that also fails the run raises.
`codecOpens` records which codecs the platform can open for writing. -/
def openSink (codecOpens : Codec → Bool) : Option Codec :=
  if codecOpens Codec.mp4v then some Codec.mp4v
  else if codecOpens Codec.xvid then some Codec.xvid
  else none

/-- Frame-rate normalization (model.py:65-69): `cap.get(CAP_PROP_FPS)`
may report zero or nothing; `if fps == 0 or fps is None: fps = 30.0`. -/
def normalizeFps : Option Rat → Rat
  | none => 30
  | some v => if v = 0 then 30 else v

/-- `TIMEOUT_LIMIT = 60` (model.py:91), the fixed wall-clock budget in
seconds. -/
def TIMEOUT_LIMIT : Rat := 60

/-- Outcome of `yolo_model.track(frame, persist=True)[0].plot(...)` on
one frame: a successful annotated frame, an empty result list
(`len(results) == 0`, model.py:114/124), or a raised exception. -/
inductive AnnotateResult
  | ok (annotated : Nat)
  | empty
  | raises
deriving DecidableEq

/-- Outcome of `out.write(...)` on one frame. -/
inductive WriteResult
  | ok
  | raises
deriving DecidableEq

/-- One iteration's worth of external behavior: the elapsed wall-clock
time `time.time() - start_time` observed at the top-of-loop check
(model.py:97), the `cap.read()` result (`none` = end of stream), and
the annotate / write outcomes for that frame. -/
structure IterEvent where
  elapsed : Rat
  readFrame : Option Nat
  annotate : AnnotateResult
  write : WriteResult
deriving DecidableEq

/-- Why the frame loop stopped.  `timeout` = budget check fired
(model.py:97-99); `endOfStream` = `cap.read()` returned false
(model.py:106-108); `exn` = an exception inside the loop body was
caught by the run-level `except` (model.py:129); `sourceClosed` =
`cap.isOpened()` was false so the loop body never ran (model.py:95);
`starved` = the event trace ended without any of the above (used only
to state that a trace prefix keeps the loop running). -/
inductive ExitReason
  | timeout
  | endOfStream
  | exn
  | sourceClosed
  | starved
deriving DecidableEq

/-- Loop result: `frame_count` (model.py:93/126), the frames written to
the sink in order, and the exit reason. -/
structure LoopOut where
  frameCount : Nat
  writes : List Nat
  exit : ExitReason
deriving DecidableEq

/-- The frame loop (model.py:95-128), one `IterEvent` per iteration:
(1) if `time.time() - start_time > TIMEOUT_LIMIT` break; (2) `ret,
frame = cap.read()`, break if not `ret`; (3) track+plot — if it raises,
the run-level `except` (model.py:129) ends the loop; if the result list
is nonempty write the annotated frame, else write the original frame
(model.py:124); a raising write likewise ends the loop; (4) increment
`frame_count` and continue. -/
def runLoop : List IterEvent → Nat → List Nat → LoopOut
  | [], fc, ws => ⟨fc, ws, ExitReason.starved⟩
  | e :: rest, fc, ws =>
    if TIMEOUT_LIMIT < e.elapsed then ⟨fc, ws, ExitReason.timeout⟩
    else
      match e.readFrame with
      | none => ⟨fc, ws, ExitReason.endOfStream⟩
      | some f =>
        match e.annotate with
        | AnnotateResult.raises => ⟨fc, ws, ExitReason.exn⟩
        | AnnotateResult.ok af =>
          match e.write with
          | WriteResult.raises => ⟨fc, ws, ExitReason.exn⟩
          | WriteResult.ok => runLoop rest (fc + 1) (ws ++ [af])
        | AnnotateResult.empty =>
          match e.write with
          | WriteResult.raises => ⟨fc, ws, ExitReason.exn⟩
          | WriteResult.ok => runLoop rest (fc + 1) (ws ++ [f])

/-- Filesystem model: does a file exist at path `p`? -/
def fsHas : List String → String → Bool
  | [], _ => false
  | q :: rest, p => if q = p then true else fsHas rest p

/-- Remove the file at path `p` (`os.remove`). -/
def fsRemove : List String → String → List String
  | [], _ => []
  | q :: rest, p => if q = p then fsRemove rest p else q :: fsRemove rest p

/-- Create or overwrite the file at path `p`. -/
def fsAdd (fs : List String) (p : String) : List String :=
  p :: fsRemove fs p

/-- The characters of the replacement string `_temp.mp4`. -/
def tempSuffix : List Char :=
  [('_'), ('t'), ('e'), ('m'), ('p'), ('.'), ('m'), ('p'), ('4')]

/-- Replace every occurrence of `.mp4` by `_temp.mp4`, scanning left to
right — the semantics of Python's `str.replace` used at model.py:145. -/
def replaceMp4 : List Char → List Char
  | ('.') :: ('m') :: ('p') :: ('4') :: rest => tempSuffix ++ replaceMp4 rest
  | c :: rest => c :: replaceMp4 rest
  | [] => []

/-- `temp_path = output_path.replace('.mp4', '_temp.mp4')` (model.py:145). -/
def tempPath (outputPath : String) : String :=
  String.mk (replaceMp4 outputPath.data)

/-- The ffmpeg command line built at model.py:151-159: input is the
temporary path (argument after `-i`), output is the original path
(final argument, overwritten because of `-y`). -/
def ffmpegCmd (temp outputPath : String) : List String :=
  [("ffmpeg"), ("-i"), temp, ("-c:v"), ("libx264"), ("-preset"),
   ("ultrafast"), ("-crf"), ("28"), ("-pix_fmt"), ("yuv420p"),
   ("-movflags"), ("+faststart"), ("-y"), outputPath]

/-- The path ffmpeg reads from: the argument following `-i`. -/
def ffmpegInputArg (temp outputPath : String) : Option String :=
  (ffmpegCmd temp outputPath)[2]?

/-- The path ffmpeg writes to: the final argument. -/
def ffmpegOutputArg (temp outputPath : String) : Option String :=
  (ffmpegCmd temp outputPath)[14]?

/-- External behavior of the transcode stage: whether `ffmpeg` is on
PATH (`shutil.which`, model.py:143), the tool's exit code, and whether
the tool left a file at the output path (with `-y` it writes the
output; on success it always does). -/
structure TranscodeEnv where
  ffmpegPresent : Bool
  exitCode : Int
  toolWritesOutput : Bool
deriving DecidableEq

/-- The compatibility transcode (model.py:143-177) as a filesystem
transformer.  If ffmpeg is absent: no-op.  Otherwise rename the raw
output to `tempPath`, run ffmpeg writing to the output path; on
non-zero exit copy the temporary file back to the output path
(model.py:168); finally remove the temporary file if it exists
(model.py:172-173).  Exceptional sub-cases mirror the Python `except`
handler (model.py:174-177): `os.rename` on a missing source raises, and
`shutil.copy2` raises `SameFileError` when the temporary path equals
the output path; the handler restores the temporary file to the output
path only when the temporary exists and the output does not. -/
def transcodeStep (te : TranscodeEnv) (outputPath : String)
    (fs : List String) : List String :=
  if te.ffmpegPresent then
    let temp := tempPath outputPath
    if fsHas fs outputPath then
      let fs1 := fsAdd (fsRemove fs outputPath) temp
      let fs2 := if te.toolWritesOutput then fsAdd fs1 outputPath else fs1
      if te.exitCode = 0 then
        if fsHas fs2 temp then fsRemove fs2 temp else fs2
      else
        if temp = outputPath then
          fs2
        else
          let fs3 := fsAdd fs2 outputPath
          if fsHas fs3 temp then fsRemove fs3 temp else fs3
    else
      if fsHas fs temp then fsAdd (fsRemove fs temp) outputPath else fs
  else fs

/-- The whole external environment of one `process_video` call.
`request` is the optional request object passed by the HTTP layer
(model.py:54), carrying a cancellation signal when present. -/
structure Env where
  videoPath : String
  outputPath : String
  request : Option Bool
  sourceOpened : Bool
  reportedWidth : Nat
  reportedHeight : Nat
  reportedFps : Option Rat
  codecOpens : Codec → Bool
  events : List IterEvent
  ffmpegPresent : Bool
  ffmpegExit : Int
  toolWritesOutput : Bool

/-- Observable outcome of a run that returned normally. -/
structure RunOutcome where
  frameCount : Nat
  writes : List Nat
  exit : ExitReason
  codecUsed : Codec
  fpsUsed : Rat
  capReleased : Bool
  outReleased : Bool
  finalFs : List String
  returned : String
deriving DecidableEq

/-- Result of a `process_video` call: either the raised writer-creation
exception (model.py:82-84, after `cap.release()` and with the writer
never opened), or a normal return. -/
inductive RunResult
  | sinkOpenFailure (capReleased : Bool) (outReleased : Bool)
  | success (out : RunOutcome)
deriving DecidableEq

/-- `process_video(video_path, output_path, request=None)`
(model.py:54-179).  In source order: open the capture (its open result
is never checked), read metadata, normalize fps, open the writer with
codec fallback — raising after `cap.release()` if both codecs fail —
then run the frame loop inside `try/except/finally` (the `finally`
releases capture and writer on every path), then run the ffmpeg
compatibility transcode on the raw output file the writer created, and
return `output_path`.  The `request` argument is never consulted: lines
101-103 are only a comment. -/
def process_video (env : Env) : RunResult :=
  let fps := normalizeFps env.reportedFps
  match openSink env.codecOpens with
  | none => RunResult.sinkOpenFailure true false
  | some c =>
    let lo :=
      if env.sourceOpened then runLoop env.events 0 []
      else ⟨0, [], ExitReason.sourceClosed⟩
    let rawFs := fsAdd [] env.outputPath
    let finalFs :=
      transcodeStep ⟨env.ffmpegPresent, env.ffmpegExit, env.toolWritesOutput⟩
        env.outputPath rawFs
    RunResult.success
      ⟨lo.frameCount, lo.writes, lo.exit, c, fps, true, true, finalFs,
        env.outputPath⟩

/-- Did the run return normally (not raise)? -/
def RunResult.isSuccess : RunResult → Bool
  | RunResult.success _ => true
  | RunResult.sinkOpenFailure _ _ => false

/-- `frame_count` reported by a normal return. -/
def RunResult.frameCountOf : RunResult → Option Nat
  | RunResult.success o => some o.frameCount
  | RunResult.sinkOpenFailure _ _ => none

/-- Exit reason of a normal return's frame loop. -/
def RunResult.exitOf : RunResult → Option ExitReason
  | RunResult.success o => some o.exit
  | RunResult.sinkOpenFailure _ _ => none

/-- Frames written to the sink by a normal return. -/
def RunResult.writesOf : RunResult → Option (List Nat)
  | RunResult.success o => some o.writes
  | RunResult.sinkOpenFailure _ _ => none

/-- The value returned by `process_video` on a normal return. -/
def RunResult.returnedOf : RunResult → Option String
  | RunResult.success o => some o.returned
  | RunResult.sinkOpenFailure _ _ => none

/-- The fps handed to the writer on a normal return. -/
def RunResult.fpsOf : RunResult → Option Rat
  | RunResult.success o => some o.fpsUsed
  | RunResult.sinkOpenFailure _ _ => none

/-- Was `cap.release()` called before the run ended? -/
def RunResult.capReleasedOf : RunResult → Bool
  | RunResult.success o => o.capReleased
  | RunResult.sinkOpenFailure cr _ => cr

/-- Was `out.release()` called before the run ended? -/
def RunResult.outReleasedOf : RunResult → Bool
  | RunResult.success o => o.outReleased
  | RunResult.sinkOpenFailure _ orl => orl

/-- Does a file exist at path `p` after the run? -/
def RunResult.producedFileAt : RunResult → String → Bool
  | RunResult.success o, p => fsHas o.finalFs p
  | RunResult.sinkOpenFailure _ _, _ => false

/-! ### Helper lemmas about the filesystem model and the frame loop -/

theorem fsHas_fsRemove (fs : List String) (p q : String) :
    fsHas (fsRemove fs p) q = if q = p then false else fsHas fs q := by
  induction fs with
  | nil => simp [fsRemove, fsHas]
  | cons a rest ih =>
    by_cases hap : a = p
    · by_cases hqp : q = p
      · subst hqp
        simp [fsRemove, hap, ih]
      · have hpq : p ≠ q := fun hh => hqp hh.symm
        subst hap
        simp [fsRemove, fsHas, hqp, hpq, ih]
    · by_cases haq : a = q
      · have hqp : q ≠ p := fun hh => hap (by rw [haq, hh])
        simp [fsRemove, fsHas, hap, haq, hqp]
      · simp [fsRemove, fsHas, hap, haq, ih]

theorem fsHas_fsAdd (fs : List String) (p q : String) :
    fsHas (fsAdd fs p) q = if q = p then true else fsHas fs q := by
  by_cases hpq : p = q
  · subst hpq
    simp [fsAdd, fsHas]
  · have hqp : ¬ q = p := fun hh => hpq hh.symm
    simp [fsAdd, fsHas, fsHas_fsRemove, hpq, hqp]

theorem runLoop_append (pre rest : List IterEvent) (fc : Nat) (ws : List Nat)
    (h : (runLoop pre fc ws).exit = ExitReason.starved) :
    runLoop (pre ++ rest) fc ws =
      runLoop rest (runLoop pre fc ws).frameCount (runLoop pre fc ws).writes := by
  induction pre generalizing fc ws with
  | nil => simp [runLoop]
  | cons e pre ih =>
    by_cases ht : TIMEOUT_LIMIT < e.elapsed
    · simp [runLoop, ht] at h
    · cases hr : e.readFrame with
      | none => simp [runLoop, ht, hr] at h
      | some f =>
        cases ha : e.annotate with
        | raises => simp [runLoop, ht, hr, ha] at h
        | ok af =>
          cases hw : e.write with
          | raises => simp [runLoop, ht, hr, ha, hw] at h
          | ok =>
            have h0 : runLoop (e :: pre) fc ws = runLoop pre (fc + 1) (ws ++ [af]) := by
              simp [runLoop, ht, hr, ha, hw]
            rw [h0] at h
            rw [List.cons_append]
            simp [runLoop, ht, hr, ha, hw, ih _ _ h, h0]
        | empty =>
          cases hw : e.write with
          | raises => simp [runLoop, ht, hr, ha, hw] at h
          | ok =>
            have h0 : runLoop (e :: pre) fc ws = runLoop pre (fc + 1) (ws ++ [f]) := by
              simp [runLoop, ht, hr, ha, hw]
            rw [h0] at h
            rw [List.cons_append]
            simp [runLoop, ht, hr, ha, hw, ih _ _ h, h0]

/-! ### Concrete environments for witnesses and counterexamples -/

/-- An iteration whose frame reads, annotates and writes successfully. -/
def evFrame (t : Rat) (f af : Nat) : IterEvent :=
  ⟨t, some f, AnnotateResult.ok af, WriteResult.ok⟩

/-- An iteration on which the annotator raises. -/
def evRaise (t : Rat) (f : Nat) : IterEvent :=
  ⟨t, some f, AnnotateResult.raises, WriteResult.ok⟩

/-- An iteration whose read reports end of stream. -/
def evEos (t : Rat) : IterEvent :=
  ⟨t, none, AnnotateResult.empty, WriteResult.ok⟩

/-- Base environment: a two-frame source that opens normally, both
codecs available, ffmpeg absent. -/
def envBase : Env where
  videoPath := ("uploads/in.mp4")
  outputPath := ("results/out.mp4")
  request := none
  sourceOpened := true
  reportedWidth := 640
  reportedHeight := 480
  reportedFps := some 30
  codecOpens := fun _ => true
  events := [evFrame 0 0 100, evFrame 1 1 101, evEos 2]
  ffmpegPresent := false
  ffmpegExit := 0
  toolWritesOutput := true

/-- A platform on which only the fallback codec XVID opens. -/
def envXvidOnly : Env :=
  { envBase with codecOpens := fun c => c == Codec.xvid }

/-! ### Claims -/

/-- Claim C3: when opening the output sink the candidate codecs are
tried in order — primary `mp4v`, then fallback `XVID` — the open
returns on the first codec that opens successfully, and the run raises
a sink-open failure exactly when every candidate codec fails to open
(model.py:74-84). -/
theorem c3_codec_fallback (env : Env) :
    (env.codecOpens Codec.mp4v = true →
      openSink env.codecOpens = some Codec.mp4v) ∧
    (env.codecOpens Codec.mp4v = false → env.codecOpens Codec.xvid = true →
      openSink env.codecOpens = some Codec.xvid) ∧
    (openSink env.codecOpens = none ↔
      env.codecOpens Codec.mp4v = false ∧ env.codecOpens Codec.xvid = false) ∧
    (RunResult.isSuccess (process_video env) = false ↔
      openSink env.codecOpens = none) := by
  cases h1 : env.codecOpens Codec.mp4v <;>
    cases h2 : env.codecOpens Codec.xvid <;>
    simp [openSink, process_video, RunResult.isSuccess, h1, h2]

theorem c3_codec_fallback_witness :
    openSink envXvidOnly.codecOpens = some Codec.xvid :=
  (c3_codec_fallback envXvidOnly).2.1 (by decide) (by decide)

/-- Claim C5: on every exit path of a run, the capture is released, and
the writer is released on every path on which it was acquired.  On the
one path where the writer is never acquired (both codecs fail to open)
the capture is still released before the exception propagates
(model.py:82-84); every other path runs the `finally` block that
releases both (model.py:133-135). -/
theorem c5_release_on_all_paths (env : Env) :
    RunResult.capReleasedOf (process_video env) = true ∧
    ((openSink env.codecOpens).isSome = true →
      RunResult.outReleasedOf (process_video env) = true) := by
  unfold process_video
  cases ho : openSink env.codecOpens <;>
    simp [RunResult.capReleasedOf, RunResult.outReleasedOf, ho]

theorem c5_release_witness :
    RunResult.capReleasedOf (process_video envBase) = true ∧
    RunResult.outReleasedOf (process_video envBase) = true :=
  ⟨(c5_release_on_all_paths envBase).1,
   (c5_release_on_all_paths envBase).2 (by decide)⟩

/-- Claim C8: a reported frame rate of zero, or an unreadable/unset
frame rate, is normalized to exactly 30.0 before the writer is opened;
a positive reported frame rate is used unchanged (model.py:65-69), and
every normal return used exactly the normalized value. -/
theorem c8_fps_normalization :
    normalizeFps none = 30 ∧
    normalizeFps (some 0) = 30 ∧
    (∀ v : Rat, 0 < v → normalizeFps (some v) = v) ∧
    (∀ env : Env, RunResult.isSuccess (process_video env) = true →
      RunResult.fpsOf (process_video env) =
        some (normalizeFps env.reportedFps)) := by
  refine ⟨rfl, by simp [normalizeFps], ?_, ?_⟩
  · intro v hv
    simp [normalizeFps, hv.ne']
  · intro env h
    unfold process_video at h ⊢
    cases ho : openSink env.codecOpens <;>
      simp_all [RunResult.isSuccess, RunResult.fpsOf]

theorem c8_fps_witness :
    normalizeFps (some 24) = 24 ∧
    RunResult.fpsOf (process_video envBase) =
      some (normalizeFps envBase.reportedFps) :=
  ⟨c8_fps_normalization.2.2.1 24 (by norm_num),
   c8_fps_normalization.2.2.2 envBase (by decide)⟩

/-- Claim C10: on every non-exceptional return, `process_video` returns
exactly the output path string it was given, regardless of frame count
and of the transcode outcome (model.py:179). -/
theorem c10_returns_output_path (env : Env) :
    RunResult.isSuccess (process_video env) = true →
    RunResult.returnedOf (process_video env) = some env.outputPath := by
  unfold process_video
  cases ho : openSink env.codecOpens <;>
    intro h <;> simp_all [RunResult.isSuccess, RunResult.returnedOf]

theorem c10_returns_witness :
    RunResult.returnedOf (process_video envBase) = some envBase.outputPath :=
  c10_returns_output_path envBase (by decide)

/-- Environment whose second top-of-loop check sees 61 seconds elapsed. -/
def envTimeout : Env :=
  { envBase with events := [evFrame 0 0 100, evFrame 61 1 101] }

/-- Claim C6: once the elapsed wall clock exceeds the fixed 60-second
budget, the loop stops gracefully at the next top-of-loop check
(model.py:97-99): no frame is read at or after that check, the frames
and writes accumulated so far are preserved, the run returns the output
path, and both resources are released.  The real-time bound — budget
plus at most the one frame in flight — is captured structurally: no
event after the first over-budget check is consumed. -/
theorem c6_timeout_graceful_stop (env : Env) (pre : List IterEvent)
    (e : IterEvent) (rest : List IterEvent)
    (hsrc : env.sourceOpened = true)
    (hsink : (openSink env.codecOpens).isSome = true)
    (hev : env.events = pre ++ e :: rest)
    (halive : (runLoop pre 0 []).exit = ExitReason.starved)
    (htime : TIMEOUT_LIMIT < e.elapsed) :
    RunResult.exitOf (process_video env) = some ExitReason.timeout ∧
    RunResult.frameCountOf (process_video env) =
      some (runLoop pre 0 []).frameCount ∧
    RunResult.writesOf (process_video env) = some (runLoop pre 0 []).writes ∧
    RunResult.returnedOf (process_video env) = some env.outputPath ∧
    RunResult.capReleasedOf (process_video env) = true ∧
    RunResult.outReleasedOf (process_video env) = true := by
  have hloop : runLoop env.events 0 [] =
      ⟨(runLoop pre 0 []).frameCount, (runLoop pre 0 []).writes,
        ExitReason.timeout⟩ := by
    rw [hev, runLoop_append pre (e :: rest) 0 [] halive]
    simp [runLoop, htime]
  obtain ⟨c, hc⟩ := Option.isSome_iff_exists.mp hsink
  unfold process_video
  simp [hc, hsrc, hloop, RunResult.exitOf, RunResult.frameCountOf,
    RunResult.writesOf, RunResult.returnedOf, RunResult.capReleasedOf,
    RunResult.outReleasedOf]

theorem c6_timeout_witness :
    RunResult.exitOf (process_video envTimeout) = some ExitReason.timeout ∧
    RunResult.frameCountOf (process_video envTimeout) =
      some (runLoop [evFrame 0 0 100] 0 []).frameCount ∧
    RunResult.writesOf (process_video envTimeout) =
      some (runLoop [evFrame 0 0 100] 0 []).writes ∧
    RunResult.returnedOf (process_video envTimeout) =
      some envTimeout.outputPath ∧
    RunResult.capReleasedOf (process_video envTimeout) = true ∧
    RunResult.outReleasedOf (process_video envTimeout) = true :=
  c6_timeout_graceful_stop envTimeout [evFrame 0 0 100] (evFrame 61 1 101) []
    rfl (by decide) rfl (by decide) (by decide)

/-- Environment in which the annotator raises on the second of three
frames. -/
def envFrameRaises : Env :=
  { envBase with
      events := [evFrame 0 0 100, evRaise 1 1, evFrame 2 2 102, evEos 3] }

/-- Counterexample to claim C1 as stated: with three readable frames
where the annotator raises on the second, the run ends with
`frame_count = 1` — the loop does not continue with the next frame, the
third frame is never processed, and neither the failing frame nor any
later frame is counted.  The `try` at model.py:94 wraps the whole
`while` loop, not one iteration. -/
theorem c1_counterexample :
    RunResult.frameCountOf (process_video envFrameRaises) = some 1 ∧
    RunResult.exitOf (process_video envFrameRaises) = some ExitReason.exn ∧
    RunResult.writesOf (process_video envFrameRaises) = some [100] := by
  decide

/-- Claim C1 (amended): an exception raised while annotating or writing
a frame is caught once at the run level (model.py:129), not per frame:
the run is not aborted — the capture and writer are released, the
frames written before the failure are preserved, and the run returns
the output path normally — but the frame loop stops at the failing
frame; that frame is not counted and no subsequent frame is read,
processed or counted. -/
theorem c1_frame_exception_stops_loop (env : Env) (pre : List IterEvent)
    (e : IterEvent) (rest : List IterEvent) (f : Nat)
    (hsrc : env.sourceOpened = true)
    (hsink : (openSink env.codecOpens).isSome = true)
    (hev : env.events = pre ++ e :: rest)
    (halive : (runLoop pre 0 []).exit = ExitReason.starved)
    (htime : ¬ TIMEOUT_LIMIT < e.elapsed)
    (hread : e.readFrame = some f)
    (hfail : e.annotate = AnnotateResult.raises ∨
      e.write = WriteResult.raises) :
    RunResult.isSuccess (process_video env) = true ∧
    RunResult.exitOf (process_video env) = some ExitReason.exn ∧
    RunResult.frameCountOf (process_video env) =
      some (runLoop pre 0 []).frameCount ∧
    RunResult.writesOf (process_video env) = some (runLoop pre 0 []).writes ∧
    RunResult.returnedOf (process_video env) = some env.outputPath ∧
    RunResult.capReleasedOf (process_video env) = true ∧
    RunResult.outReleasedOf (process_video env) = true := by
  have hstep :
      runLoop (e :: rest) (runLoop pre 0 []).frameCount
        (runLoop pre 0 []).writes =
      ⟨(runLoop pre 0 []).frameCount, (runLoop pre 0 []).writes,
        ExitReason.exn⟩ := by
    rcases hfail with hf | hf
    · simp [runLoop, htime, hread, hf]
    · cases ha : e.annotate with
      | raises => simp [runLoop, htime, hread, ha]
      | ok af => simp [runLoop, htime, hread, ha, hf]
      | empty => simp [runLoop, htime, hread, ha, hf]
  have hloop : runLoop env.events 0 [] =
      ⟨(runLoop pre 0 []).frameCount, (runLoop pre 0 []).writes,
        ExitReason.exn⟩ := by
    rw [hev, runLoop_append pre (e :: rest) 0 [] halive, hstep]
  obtain ⟨c, hc⟩ := Option.isSome_iff_exists.mp hsink
  unfold process_video
  simp [hc, hsrc, hloop, RunResult.isSuccess, RunResult.exitOf,
    RunResult.frameCountOf, RunResult.writesOf, RunResult.returnedOf,
    RunResult.capReleasedOf, RunResult.outReleasedOf]

theorem c1_frame_exception_witness :
    RunResult.isSuccess (process_video envFrameRaises) = true ∧
    RunResult.exitOf (process_video envFrameRaises) = some ExitReason.exn ∧
    RunResult.frameCountOf (process_video envFrameRaises) =
      some (runLoop [evFrame 0 0 100] 0 []).frameCount ∧
    RunResult.writesOf (process_video envFrameRaises) =
      some (runLoop [evFrame 0 0 100] 0 []).writes ∧
    RunResult.returnedOf (process_video envFrameRaises) =
      some envFrameRaises.outputPath ∧
    RunResult.capReleasedOf (process_video envFrameRaises) = true ∧
    RunResult.outReleasedOf (process_video envFrameRaises) = true :=
  c1_frame_exception_stops_loop envFrameRaises [evFrame 0 0 100] (evRaise 1 1)
    [evFrame 2 2 102, evEos 3] 1 rfl (by decide) rfl (by decide) (by decide)
    rfl (Or.inl rfl)

/-- Environment whose input cannot be opened as a video source. -/
def envSourceClosed : Env :=
  { envBase with sourceOpened := false }

/-- Counterexample to claim C2 as stated: with an input that cannot be
opened (so `cap.isOpened()` is false and no frame is ever read), the
run does not fail at all — there is no source-open check anywhere in
`process_video` — it opens the writer (which creates a file at the
output path), runs zero loop iterations, and returns the output path
normally, so the caller receives a silently empty output file. -/
theorem c2_counterexample :
    RunResult.isSuccess (process_video envSourceClosed) = true ∧
    RunResult.frameCountOf (process_video envSourceClosed) = some 0 ∧
    RunResult.producedFileAt (process_video envSourceClosed)
      envSourceClosed.outputPath = true ∧
    RunResult.returnedOf (process_video envSourceClosed) =
      some envSourceClosed.outputPath := by
  decide

/-- Claim C2 (amended): `process_video` never raises a source-open
error; for an input path that cannot be opened, no frame is read
(`frame_count = 0`) and the run still opens the sink and returns the
output path normally — producing an empty output file — and the only
fatal, surfaced failure on such a run is the writer-creation exception
when both codecs fail to open. -/
theorem c2_no_source_open_check (env : Env)
    (hsrc : env.sourceOpened = false) :
    ((openSink env.codecOpens).isSome = true →
      RunResult.isSuccess (process_video env) = true ∧
      RunResult.frameCountOf (process_video env) = some 0 ∧
      RunResult.exitOf (process_video env) = some ExitReason.sourceClosed ∧
      RunResult.returnedOf (process_video env) = some env.outputPath) ∧
    ((openSink env.codecOpens).isSome = false →
      process_video env = RunResult.sinkOpenFailure true false) := by
  constructor
  · intro hsink
    obtain ⟨c, hc⟩ := Option.isSome_iff_exists.mp hsink
    unfold process_video
    simp [hc, hsrc, RunResult.isSuccess, RunResult.frameCountOf,
      RunResult.exitOf, RunResult.returnedOf]
  · intro hsink
    unfold process_video
    cases ho : openSink env.codecOpens with
    | none => simp
    | some c => simp [ho] at hsink

theorem c2_no_source_open_witness :
    RunResult.isSuccess (process_video envSourceClosed) = true ∧
    RunResult.frameCountOf (process_video envSourceClosed) = some 0 ∧
    RunResult.exitOf (process_video envSourceClosed) =
      some ExitReason.sourceClosed ∧
    RunResult.returnedOf (process_video envSourceClosed) =
      some envSourceClosed.outputPath :=
  (c2_no_source_open_check envSourceClosed rfl).1 (by decide)

/-- A transcode run in which ffmpeg is present and exits non-zero
without leaving a file at the output path. -/
def teSoftFail : TranscodeEnv :=
  ⟨true, 1, false⟩

/-- Claim C4: when the transcode step executes (ffmpeg present) on an
existing raw output file, after the step exactly one file exists at the
final output path and no temporary artifact remains, under both the
success outcome (exit 0: temporary removed, model.py:172-173) and the
soft-failure outcome (non-zero exit: the untranscoded temporary is
copied back to the output path, model.py:168, then removed).  The
hypothesis `tempPath p ≠ p` is the precondition the path arithmetic of
model.py:145 needs; it holds whenever the output path contains `.mp4`
(claim C9 covers the degenerate case), and the hypothesis on exit 0
states the tool's contract that a successful run wrote its output. -/
theorem c4_transcode_invariant (te : TranscodeEnv) (p : String)
    (fs : List String)
    (hff : te.ffmpegPresent = true)
    (hraw : fsHas fs p = true)
    (htemp : tempPath p ≠ p)
    (hsucc : te.exitCode = 0 → te.toolWritesOutput = true) :
    fsHas (transcodeStep te p fs) p = true ∧
    fsHas (transcodeStep te p fs) (tempPath p) = false := by
  by_cases hexit : te.exitCode = 0
  · have hw := hsucc hexit
    simp [transcodeStep, hff, hraw, hexit, hw, fsHas_fsAdd, fsHas_fsRemove,
      htemp, Ne.symm htemp]
  · cases hw : te.toolWritesOutput <;>
      simp [transcodeStep, hff, hraw, hexit, hw, fsHas_fsAdd, fsHas_fsRemove,
        htemp, Ne.symm htemp]

theorem c4_transcode_witness :
    fsHas (transcodeStep teSoftFail ("results/out.mp4")
      [("results/out.mp4")]) ("results/out.mp4") = true ∧
    fsHas (transcodeStep teSoftFail ("results/out.mp4")
      [("results/out.mp4")]) (tempPath ("results/out.mp4")) = false :=
  c4_transcode_invariant teSoftFail ("results/out.mp4")
    [("results/out.mp4")] rfl (by decide) (by decide) (by decide)

/-- Claim C9: the temporary path is derived by replacing every
occurrence of the substring `.mp4` in the output path with `_temp.mp4`
(model.py:145) — so for a path ending in `.mp4` once it appends `_temp`
before the extension, for a path with two occurrences both are
replaced, and for a path with no occurrence the temporary path equals
the output path itself, in which case the ffmpeg command reads (`-i`
argument) and overwrites (final argument) the same file. -/
theorem c9_temp_path_derivation :
    tempPath ("results/out.mp4") = ("results/out_temp.mp4") ∧
    tempPath ("a.mp4b.mp4") = ("a_temp.mp4b_temp.mp4") ∧
    tempPath ("results/video.avi") = ("results/video.avi") ∧
    (∀ p : String, tempPath p = p →
      ffmpegInputArg (tempPath p) p = ffmpegOutputArg (tempPath p) p) := by
  refine ⟨by decide, by decide, by decide, ?_⟩
  intro p hp
  have h2 : ffmpegInputArg (tempPath p) p = some (tempPath p) := rfl
  have h14 : ffmpegOutputArg (tempPath p) p = some p := rfl
  rw [h2, h14, hp]

theorem c9_temp_path_witness :
    ffmpegInputArg (tempPath ("results/video.avi")) ("results/video.avi") =
      ffmpegOutputArg (tempPath ("results/video.avi"))
        ("results/video.avi") :=
  c9_temp_path_derivation.2.2.2 ("results/video.avi") (by decide)

/-- Environment in which the caller signals cancellation from the very
start of the run. -/
def envCancelled : Env :=
  { envBase with request := some true }

/-- Counterexample to claim C7 as stated: with cancellation signalled
before the first frame, the run still reads and processes every frame
and stops only at end of stream — the request is never consulted inside
the loop (model.py:101-103 is only a comment). -/
theorem c7_counterexample :
    envCancelled.request = some true ∧
    RunResult.frameCountOf (process_video envCancelled) = some 2 ∧
    RunResult.exitOf (process_video envCancelled) =
      some ExitReason.endOfStream := by
  decide

/-- Claim C7 (amended): `process_video` accepts the optional request
object (model.py:54) but never consults it: the entire run result is
identical for every value of the cancellation signal, so a caller-driven
abort cannot stop the loop — the loop stops only on timeout, end of
stream, or an in-loop exception. -/
theorem c7_request_never_consulted (env : Env) (r1 r2 : Option Bool) :
    process_video { env with request := r1 } =
      process_video { env with request := r2 } := rfl
